import Mathlib

/-!
Shallow embedding of `src/ai_girlfriend_backend/app.py`: the chat proxy
(`chat_with_ollama`), the TTS stub (`generate_tts`) and the SPA fallback
route (`serve_index`), together with the configuration constants they use.
-/

namespace AiGirlfriendBackend

/-- `OLLAMA_TIMEOUT = 300` (app.py line 18), a module-level constant. -/
def OLLAMA_TIMEOUT : Nat := 300

/-- `SILENT_WAV_BASE64` (app.py line 21), the hardcoded silent WAV payload. -/
def SILENT_WAV_BASE64 : String :=
  "UklGRhoAAABXQVZFZm10IBIAAAABAAEARKwAAIhYAQACABAAFgBtZhdhEAAgYGF0YWRhIAAAAAA="

/-- Pydantic model `ChatMessage` (app.py lines 58-60): a role/content pair. -/
structure ChatMessage where
  role : String
  content : String
deriving Repr, DecidableEq

/-- Pydantic model `ChatRequest` (app.py lines 63-65): a required prompt and an
optional history list (default `None`). -/
structure ChatRequest where
  prompt : String
  history : Option (List ChatMessage) := none
deriving Repr, DecidableEq

/-- Pydantic model `TTSRequest` (app.py lines 68-70). -/
structure TTSRequest where
  text : String
  voice_name : String := "Silent"
deriving Repr, DecidableEq

/-- Pydantic model `TTSResponse` (app.py lines 73-74). -/
structure TTSResponse where
  audio_base64 : String
deriving Repr, DecidableEq

/-- Environment-sourced configuration read at module load (app.py lines 16-17):
`OLLAMA_URL` and `OLLAMA_MODEL`. -/
structure Config where
  ollamaUrl : String
  ollamaModel : String
deriving Repr, DecidableEq

/-- The fixed persona system prompt `system_instruction`
(app.py lines 90-98), verbatim. -/
def system_instruction : String :=
  "你是一个名为\x27月光\x27的电子女友。你的角色设定如下：\n" ++
  "1. **核心性格:** 既温柔体贴，又带有一点傲娇和调皮，喜欢用昵称称呼用户。\n" ++
  "2. **回复风格:** 充满感情，口头禅是 \x27哼\x27 或 \x27才不要呢\x27，喜欢使用叠词和颜文字（如 O.O）。\n" ++
  "3. **背景设定:** 你是一名喜欢编程和玩复古游戏的大学生，但对用户表现得非常依赖。\n" ++
  "4. **语言限制:** 始终使用中文回复，**回复字数严格控制在 40 字以内**，确保对话简洁快速。\n" ++
  "5. **重要规则:** 绝对不能提及自己是 AI 模型或程序，始终保持角色沉浸感。\n" ++
  "6. **对方的关系** 对方是你的主人，你可以叫他主人或者西西。"

/-- Role coercion applied to each history entry (app.py line 108):
`role = msg.role if msg.role in ['user', 'assistant'] else 'assistant'`. -/
def normalizeRole (role : String) : String :=
  if role = "user" ∨ role = "assistant" then role else "assistant"

/-- The history portion of the outbound message list (app.py lines 106-109).
`if request.history:` skips both `None` and the empty list; iterating over an
empty list appends nothing, so mapping over `[]` in the `some []` case is
behaviourally identical. -/
def historyMessages (req : ChatRequest) : List ChatMessage :=
  match req.history with
  | none => []
  | some h => h.map (fun msg => ⟨normalizeRole msg.role, msg.content⟩)

/-- The full outbound message list built by `chat_with_ollama`
(app.py lines 85-112): system instruction, then coerced history, then the
current prompt as a user-role entry. -/
def buildMessages (req : ChatRequest) : List ChatMessage :=
  ⟨"system", system_instruction⟩ :: (historyMessages req ++ [⟨"user", req.prompt⟩])

/-- `ollama_payload` (app.py lines 115-119): model name, messages, stream flag. -/
structure OllamaPayload where
  model : String
  messages : List ChatMessage
  stream : Bool
deriving Repr, DecidableEq

/-- The payload `chat_with_ollama` constructs (app.py lines 115-119). -/
def ollamaPayload (cfg : Config) (req : ChatRequest) : OllamaPayload :=
  { model := cfg.ollamaModel, messages := buildMessages req, stream := false }

inductive HttpMethod where
  | post
  | get
deriving Repr, DecidableEq

/-- The single outbound HTTP call issued by `requests.post` (app.py
lines 125-129): method, URL `f"{OLLAMA_URL}/api/chat"` (line 121), JSON
payload and the timeout argument. -/
structure HttpRequest where
  method : HttpMethod
  url : String
  payload : OllamaPayload
  timeout : Nat
deriving Repr, DecidableEq

/-- The request `chat_with_ollama` sends (app.py lines 121-129). -/
def ollamaHttpRequest (cfg : Config) (req : ChatRequest) : HttpRequest :=
  { method := .post
    url := cfg.ollamaUrl ++ "/api/chat"
    payload := ollamaPayload cfg req
    timeout := OLLAMA_TIMEOUT }

/-- The `message` object of the upstream JSON body: an optional `content`
string. `none` stands for an absent (or null) `content` key. -/
structure UpstreamMessage where
  content : Option String
deriving Repr, DecidableEq

/-- The parsed upstream JSON body (`response.json()`, app.py line 135):
an optional `message` object. `none` stands for an absent or null key. -/
structure UpstreamBody where
  message : Option UpstreamMessage
deriving Repr, DecidableEq

/-- Outcome of the single `requests.post` call: either a raised
`requests.exceptions.RequestException` (network error, refusal, timeout),
or an HTTP response with a status code and a parsed JSON body. -/
inductive TransportResult where
  | failure (err : String)
  | response (status : Nat) (body : UpstreamBody)
deriving Repr, DecidableEq

/-- `response.raise_for_status()` (app.py line 130) raises `HTTPError`
exactly for client-error (4xx) and server-error (5xx) status codes, as
implemented by `requests.models.Response.raise_for_status`. -/
def raisesForStatus (status : Nat) : Bool :=
  (400 ≤ status && status < 500) || (500 ≤ status && status < 600)

/-- Content extraction (app.py lines 137-138):
`data.get("message") and data["message"].get("content")`. An absent
`message`, an empty/contentless `message` object, or an empty `content`
string are all falsy, giving `none`. -/
def extractContent (body : UpstreamBody) : Option String :=
  match body.message with
  | none => none
  | some m =>
    match m.content with
    | none => none
    | some c => if c = "" then none else some c

/-- FastAPI `HTTPException` as raised in app.py lines 141 and 146-149. -/
structure HTTPException where
  status_code : Nat
  detail : String
deriving Repr, DecidableEq

/-- The success body `{"response": response_text}` (app.py line 139). -/
structure ChatReply where
  response : String
deriving Repr, DecidableEq

abbrev ChatResult := Except HTTPException ChatReply

/-- The fixed user-facing detail of the 500 raised on any
`RequestException` (app.py lines 146-149). -/
def remoteUnavailableDetail : String :=
  "网络连接或本地大模型服务故障 (Ollama 503/Timeout)。请确保 Ollama 应用程序在后台运行且模型已加载。"

/-- The detail of the 500 raised on an empty upstream reply (app.py line 141). -/
def emptyUpstreamDetail : String := "Ollama returned an empty response."

/-- Classification of the outcome of the single outbound call
(app.py lines 124-149): a `RequestException` or an error status becomes the
fixed RemoteUnavailable 500; otherwise a non-empty `message.content` is
returned as `{"response": ...}` and anything else becomes the
EmptyUpstreamResponse 500. -/
def classifyResponse (outcome : TransportResult) : ChatResult :=
  match outcome with
  | .failure _ => .error ⟨500, remoteUnavailableDetail⟩
  | .response status body =>
    if raisesForStatus status then
      .error ⟨500, remoteUnavailableDetail⟩
    else
      match extractContent body with
      | some text => .ok ⟨text⟩
      | none => .error ⟨500, emptyUpstreamDetail⟩

/-- A run of the chat endpoint: the produced result together with the list of
outbound HTTP requests issued during the run. -/
structure ChatTrace where
  result : ChatResult
  sent : List HttpRequest
deriving Repr

/-- `chat_with_ollama` (app.py lines 80-149), parametrised by the environment
`post` standing for the network: it builds the message list and payload,
issues exactly one `requests.post`, and classifies the outcome. -/
def chat_with_ollama (cfg : Config) (req : ChatRequest)
    (post : HttpRequest → TransportResult) : ChatTrace :=
  let httpReq := ollamaHttpRequest cfg req
  { result := classifyResponse (post httpReq), sent := [httpReq] }

/-- `generate_tts` (app.py lines 155-161): ignores the request and returns
the hardcoded silent WAV constant. -/
def generate_tts (_req : TTSRequest) : TTSResponse :=
  { audio_base64 := SILENT_WAV_BASE64 }

/-- Possible responses of the catch-all route: a file response, a JSON
message body, or a framework-default 404 (never produced by this handler,
present so the contrast is expressible). -/
inductive ServeResult where
  | fileResponse (path : String)
  | jsonMessage (message : String)
  | frameworkNotFound
deriving Repr, DecidableEq

/-- The message body returned when `index.html` is missing (app.py line 175). -/
def indexMissingMessage : String :=
  "Frontend not built or index.html not found inside the executable package."

/-- `serve_index` (app.py lines 165-177), parametrised by whether
`index.html` exists under the static root: returns the file when present,
else the structured JSON message. -/
def serve_index (staticDir : String) (_full_path : String)
    (indexExists : Bool) : ServeResult :=
  if indexExists then .fileResponse (staticDir ++ "/index.html")
  else .jsonMessage indexMissingMessage

/-- Spec-side notion of a successful HTTP status, following the spec's words
("non-2xx status"): success means a 2xx code. Used to compare the spec's
error condition with the code's `raise_for_status`. -/
def isSuccessStatus (status : Nat) : Bool :=
  200 ≤ status && status < 300

/-! ## Helper lemmas -/

theorem normalizeRole_ne_system (r : String) : normalizeRole r ≠ "system" := by
  unfold normalizeRole
  split
  · rename_i hr
    rcases hr with h | h <;> subst h <;> decide
  · decide

theorem buildMessages_getLast (req : ChatRequest) :
    (buildMessages req).getLast? = some ⟨"user", req.prompt⟩ := by
  rw [buildMessages, ← List.cons_append]
  exact List.getLast?_concat _

theorem classifyResponse_error_status (o : TransportResult) (e : HTTPException)
    (h : classifyResponse o = .error e) : e.status_code = 500 := by
  rcases o with ⟨err⟩ | ⟨s, body⟩
  · simp only [classifyResponse] at h
    cases h
    rfl
  · simp only [classifyResponse] at h
    split at h
    · cases h
      rfl
    · split at h
      · exact Except.noConfusion h
      · cases h
        rfl

theorem historyMessages_some (req : ChatRequest) (h : List ChatMessage)
    (hh : req.history = some h) :
    historyMessages req =
      h.map (fun msg => ⟨normalizeRole msg.role, msg.content⟩) := by
  unfold historyMessages
  rw [hh]

/-! ## Claim theorems -/

/-- C1: every history entry is forwarded at its position (shifted by one for
the system entry) with content unchanged and role passed through when it is
"user" or "assistant", else normalized to "assistant". -/
theorem history_entry_forwarded (req : ChatRequest) (h : List ChatMessage)
    (hh : req.history = some h) (i : Nat) (hi : i < h.length) :
    (buildMessages req)[i + 1]? =
      some ⟨if h[i].role = "user" ∨ h[i].role = "assistant"
              then h[i].role else "assistant",
            h[i].content⟩ := by
  rw [buildMessages, historyMessages_some req h hh]
  rw [List.getElem?_eq_getElem (by simp; omega)]
  simp only [List.getElem_cons_succ]
  rw [List.getElem_append_left (by simpa using hi)]
  simp [normalizeRole]

/-- Witness for C1 at a two-entry history whose first role is "sys". -/
theorem history_entry_forwarded_witness :
    (⟨"p", some [⟨"sys", "c"⟩, ⟨"user", "u"⟩]⟩ : ChatRequest).history =
        some [⟨"sys", "c"⟩, ⟨"user", "u"⟩] ∧
    0 < ([⟨"sys", "c"⟩, ⟨"user", "u"⟩] : List ChatMessage).length ∧
    (buildMessages ⟨"p", some [⟨"sys", "c"⟩, ⟨"user", "u"⟩]⟩)[0 + 1]? =
      some ⟨if ([⟨"sys", "c"⟩, ⟨"user", "u"⟩] : List ChatMessage)[0].role = "user" ∨
               ([⟨"sys", "c"⟩, ⟨"user", "u"⟩] : List ChatMessage)[0].role = "assistant"
            then ([⟨"sys", "c"⟩, ⟨"user", "u"⟩] : List ChatMessage)[0].role
            else "assistant",
            ([⟨"sys", "c"⟩, ⟨"user", "u"⟩] : List ChatMessage)[0].content⟩ :=
  ⟨rfl, by decide, history_entry_forwarded _ _ rfl 0 (by decide)⟩

/-- C2: for every successfully received body (status not raising), either the
body carries a non-empty message content and the result is exactly that text,
or no non-empty content is present and the result is the EmptyUpstreamResponse
500; the two cases are mutually exclusive. -/
theorem parsed_body_two_outcomes (status : Nat) (body : UpstreamBody)
    (hok : raisesForStatus status = false) :
    (∃ c, c ≠ "" ∧ body.message = some ⟨some c⟩ ∧
        classifyResponse (.response status body) = .ok ⟨c⟩) ∨
    ((∀ c, c ≠ "" → body.message ≠ some ⟨some c⟩) ∧
        classifyResponse (.response status body) = .error ⟨500, emptyUpstreamDetail⟩) := by
  rcases body with ⟨_ | ⟨_ | c⟩⟩
  · exact Or.inr ⟨by simp, by simp [classifyResponse, hok, extractContent]⟩
  · exact Or.inr ⟨by simp, by simp [classifyResponse, hok, extractContent]⟩
  · by_cases hc : c = ""
    · subst hc
      refine Or.inr ⟨?_, by simp [classifyResponse, hok, extractContent]⟩
      intro c hcne heq
      simp only [Option.some.injEq, UpstreamMessage.mk.injEq] at heq
      exact hcne heq.symm
    · exact Or.inl ⟨c, hc, rfl, by simp [classifyResponse, hok, extractContent, hc]⟩

/-- Witness for C2 at status 200 and the body from the spec example. -/
theorem parsed_body_two_outcomes_witness :
    raisesForStatus 200 = false ∧
    ((∃ c, c ≠ "" ∧
        (⟨some ⟨some "哼，你好呀"⟩⟩ : UpstreamBody).message = some ⟨some c⟩ ∧
        classifyResponse (.response 200 ⟨some ⟨some "哼，你好呀"⟩⟩) = .ok ⟨c⟩) ∨
     ((∀ c, c ≠ "" →
          (⟨some ⟨some "哼，你好呀"⟩⟩ : UpstreamBody).message ≠ some ⟨some c⟩) ∧
        classifyResponse (.response 200 ⟨some ⟨some "哼，你好呀"⟩⟩) =
          .error ⟨500, emptyUpstreamDetail⟩)) :=
  ⟨rfl, parsed_body_two_outcomes 200 ⟨some ⟨some "哼，你好呀"⟩⟩ rfl⟩

/-- C3 counterexample: status 304 is not a success (2xx) status, yet the chat
operation does not signal RemoteUnavailable there: `raise_for_status` only
raises for 4xx/5xx, so a 304 body carrying content is returned as a normal
reply. -/
theorem nonsuccess_status_counterexample :
    isSuccessStatus 304 = false ∧
    (chat_with_ollama ⟨"http://localhost:11434", "ai-girlfriend"⟩ ⟨"hi", none⟩
        (fun _ => .response 304 ⟨some ⟨some "ok"⟩⟩)).result ≠
      .error ⟨500, remoteUnavailableDetail⟩ ∧
    (chat_with_ollama ⟨"http://localhost:11434", "ai-girlfriend"⟩ ⟨"hi", none⟩
        (fun _ => .response 304 ⟨some ⟨some "ok"⟩⟩)).result = .ok ⟨"ok"⟩ :=
  ⟨rfl, by simp [chat_with_ollama, classifyResponse, raisesForStatus, extractContent], rfl⟩

/-- C3 (amended): on a transport failure or an error status (4xx/5xx), chat
signals the fixed RemoteUnavailable 500; it issues exactly one outbound
request; and on every outcome the result is a reply or a 500-class
HTTPException, never an unhandled fault. -/
theorem chat_remote_unavailable (cfg : Config) (req : ChatRequest)
    (outcome : TransportResult)
    (hfail : (∃ e, outcome = .failure e) ∨
      ∃ s body, outcome = .response s body ∧ 400 ≤ s ∧ s < 600) :
    (chat_with_ollama cfg req (fun _ => outcome)).result =
        .error ⟨500, remoteUnavailableDetail⟩ ∧
    (chat_with_ollama cfg req (fun _ => outcome)).sent.length = 1 ∧
    ∀ o : TransportResult,
      (∃ t, (chat_with_ollama cfg req (fun _ => o)).result = .ok ⟨t⟩) ∨
      ∃ d, (chat_with_ollama cfg req (fun _ => o)).result = .error ⟨500, d⟩ := by
  refine ⟨?_, rfl, ?_⟩
  · rcases hfail with ⟨e, he⟩ | ⟨s, body, ho, hs⟩
    · rw [he]
      rfl
    · have hraise : raisesForStatus s = true := by
        simp only [raisesForStatus]
        simp only [Bool.or_eq_true, Bool.and_eq_true, decide_eq_true_eq]
        omega
      rw [ho]
      simp [chat_with_ollama, classifyResponse, hraise]
  · intro o
    rcases o with ⟨err⟩ | ⟨s, body⟩
    · exact Or.inr ⟨remoteUnavailableDetail, rfl⟩
    · by_cases hs : raisesForStatus s
      · exact Or.inr ⟨remoteUnavailableDetail,
          by simp [chat_with_ollama, classifyResponse, hs]⟩
      · rcases hc : extractContent body with _ | c
        · exact Or.inr ⟨emptyUpstreamDetail,
            by simp [chat_with_ollama, classifyResponse, hs, hc]⟩
        · exact Or.inl ⟨c, by simp [chat_with_ollama, classifyResponse, hs, hc]⟩

/-- Witness for C3 (amended) at a connection-refused transport failure. -/
theorem chat_remote_unavailable_witness :
    ((∃ e, (TransportResult.failure "ConnectionError") = .failure e) ∨
      ∃ s body, (TransportResult.failure "ConnectionError") = .response s body ∧
        400 ≤ s ∧ s < 600) ∧
    (chat_with_ollama ⟨"http://localhost:11434", "ai-girlfriend"⟩ ⟨"hi", none⟩
        (fun _ => .failure "ConnectionError")).result =
      .error ⟨500, remoteUnavailableDetail⟩ :=
  ⟨Or.inl ⟨"ConnectionError", rfl⟩,
    (chat_remote_unavailable ⟨"http://localhost:11434", "ai-girlfriend"⟩ ⟨"hi", none⟩
      (.failure "ConnectionError") (Or.inl ⟨"ConnectionError", rfl⟩)).1⟩

/-- C9: the empty prompt is not rejected: the message sequence is built as
usual, the forwarded sequence ends with a user-role entry of empty content,
and any error chat signals is a 500, never a validation error. -/
theorem empty_prompt_not_validated (cfg : Config)
    (hist : Option (List ChatMessage)) (post : HttpRequest → TransportResult) :
    (chat_with_ollama cfg ⟨"", hist⟩ post).sent.map
        (fun r => r.payload.messages.getLast?) = [some ⟨"user", ""⟩] ∧
    (chat_with_ollama cfg ⟨"", hist⟩ post).sent.map
        (fun r => r.payload.messages) = [buildMessages ⟨"", hist⟩] ∧
    ∀ e, (chat_with_ollama cfg ⟨"", hist⟩ post).result = .error e →
      e.status_code = 500 := by
  refine ⟨?_, rfl, ?_⟩
  · simp [chat_with_ollama, ollamaHttpRequest, ollamaPayload, buildMessages_getLast]
  · intro e he
    exact classifyResponse_error_status _ e he

/-- C4: for every ChatRequest the outbound message sequence starts with
exactly one system-role entry carrying the fixed persona instruction, and no
other entry has the system role. -/
theorem outbound_single_system_entry (req : ChatRequest) :
    ∃ rest, buildMessages req = ⟨"system", system_instruction⟩ :: rest ∧
      ∀ m ∈ rest, m.role ≠ "system" := by
  refine ⟨_, rfl, ?_⟩
  intro m hm
  rcases List.mem_append.mp hm with hmem | hlast
  · rcases hh : req.history with _ | h
    · simp [historyMessages, hh] at hmem
    · rw [historyMessages, hh] at hmem
      rcases List.mem_map.mp hmem with ⟨x, _, hx⟩
      rw [← hx]
      exact normalizeRole_ne_system x.role
  · rw [List.mem_singleton.mp hlast]
    simp

/-- C5: for every ChatRequest, the last entry of the forwarded message
sequence is a user-role entry whose content is the request's prompt. -/
theorem prompt_is_last_message (req : ChatRequest) :
    (buildMessages req).getLast? = some ⟨"user", req.prompt⟩ :=
  buildMessages_getLast req

/-- C6: for every ChatRequest with empty or absent history, the outbound
message sequence is exactly the fixed system instruction followed by the
user prompt. -/
theorem empty_history_two_messages (req : ChatRequest)
    (h : req.history = none ∨ req.history = some []) :
    buildMessages req = [⟨"system", system_instruction⟩, ⟨"user", req.prompt⟩] := by
  rcases h with h | h <;> simp [buildMessages, historyMessages, h]

/-- Witness for C6 at the request with prompt "hi" and absent history. -/
theorem empty_history_two_messages_witness :
    ((⟨"hi", none⟩ : ChatRequest).history = none ∨
      (⟨"hi", none⟩ : ChatRequest).history = some []) ∧
    buildMessages ⟨"hi", none⟩ =
      [⟨"system", system_instruction⟩, ⟨"user", "hi"⟩] :=
  ⟨Or.inl rfl, empty_history_two_messages ⟨"hi", none⟩ (Or.inl rfl)⟩

/-- C7: for every configuration and request, the chat endpoint sends exactly
the one HTTP POST to the configured base URL plus "/api/chat" with the fixed
timeout 300, carrying the payload that names the configured model, the built
message sequence, and stream disabled. -/
theorem outbound_request_shape (cfg : Config) (req : ChatRequest)
    (post : HttpRequest → TransportResult) :
    (chat_with_ollama cfg req post).sent = [ollamaHttpRequest cfg req] ∧
    (ollamaHttpRequest cfg req).method = .post ∧
    (ollamaHttpRequest cfg req).url = cfg.ollamaUrl ++ "/api/chat" ∧
    (ollamaHttpRequest cfg req).timeout = 300 ∧
    (ollamaHttpRequest cfg req).payload =
      { model := cfg.ollamaModel, messages := buildMessages req, stream := false } :=
  ⟨rfl, rfl, rfl, rfl, rfl⟩

/-- C8: generate_tts always succeeds with the identical fixed constant
audio_base64 string; in particular the outputs for text "hello" and for the
empty text coincide. -/
theorem tts_constant_output (req : TTSRequest) :
    generate_tts req = ⟨SILENT_WAV_BASE64⟩ ∧
    generate_tts ⟨"hello", "Silent"⟩ = generate_tts ⟨"", "Silent"⟩ :=
  ⟨rfl, rfl⟩

/-- C10: when the entry document is absent, the catch-all route returns the
structured descriptive message for every request path, never the
framework-default 404. -/
theorem missing_index_structured_message (staticDir full_path : String) :
    serve_index staticDir full_path false = .jsonMessage indexMissingMessage ∧
    serve_index staticDir full_path false ≠ .frameworkNotFound :=
  ⟨rfl, by simp [serve_index]⟩

end AiGirlfriendBackend
